import Mathlib

/-!
Verification of the LastMinute.ai pipeline (`src/pipeline_graph.py`) against its
natural-language specification.

The Python code is shallowly embedded: Python strings are modelled as `List Char`
(so that every operation is a structural, kernel-computable function), Python
dicts holding JSON payloads as an inductive `PyJson`, timestamps as integers
(cache) or rationals (rate limiter), and the on-disk cache as a total map from
keys to optional entries.  External effects (the generative-model call, HTTP
requests, the wall clock) are passed in explicitly as parameters or oracles.
-/

/-- Python strings are modelled as lists of unicode characters, so `len`,
slicing, `strip`, `lower` and friends become structural list functions. -/
abbrev PyStr := List Char

/-- Embed a Lean string literal as a `PyStr`. -/
def pstr (s : String) : PyStr := s.data

/-- The apostrophe character, written via its code point. -/
def apos : Char := Char.ofNat 39

/-- Python `str.strip()`: drop unicode whitespace from both ends. -/
def pyStrip (s : PyStr) : PyStr :=
  ((s.dropWhile Char.isWhitespace).reverse.dropWhile Char.isWhitespace).reverse

/-- Python `str.lower()` (the source only lowercases ASCII concepts). -/
def pyLower (s : PyStr) : PyStr := s.map Char.toLower

/-- Python `sep.join(xs)`. -/
def pyJoin (sep : PyStr) (xs : List PyStr) : PyStr := List.intercalate sep xs

/-- `_word_count` (src/pipeline_graph.py:471-472): `len(re.findall(r"\S+", text))`,
i.e. the number of maximal nonwhitespace runs. -/
def word_count (s : PyStr) : Nat :=
  (s.foldl
    (fun (acc : Nat × Bool) c =>
      if c.isWhitespace then (acc.1, false)
      else if acc.2 then acc else (acc.1 + 1, true))
    (0, false)).1

/-! ## External call cache (`_cache_get_json` / `_cache_set_json`)

`src/pipeline_graph.py:105-177`.  An on-disk JSON file per key is modelled as a
total map from keys to optional entries; `os.replace` is atomic, so a reader
sees either the old entry or the whole new one, never a partial write.  Read or
write I/O failures (modelled away here) are treated as a miss / no-op in the
source.  Timestamps are whole seconds (`ℤ`); the TTL returned by
`_cache_ttl_seconds` is always `≥ 0` (the source clamps with `max(parsed, 0)`).
-/

/-- A parsed JSON value, as far as the cache cares: `isinstance(data, dict)`
is the only structural test the source performs. -/
inductive PyJson where
  | obj (fields : List (String × PyJson))
  | arr (items : List PyJson)
  | str (s : String)
  | num (n : ℤ)
  | boolean (b : Bool)
  | null

/-- Python `isinstance(data, dict)`. -/
def PyJson.isDict : PyJson → Bool
  | .obj _ => true
  | _ => false

/-- One cache file: `{"cached_at": <seconds>, "data": <payload>}`. -/
structure CacheEntry where
  cached_at : ℤ
  data : PyJson

/-- The cache directory: one optional entry per key. -/
def CacheStore := String → Option CacheEntry

/-- The empty cache directory. -/
def emptyCacheStore : CacheStore := fun _ => none

/-- `_cache_get_json` (src/pipeline_graph.py:137-152): missing file is a miss;
an entry is expired when `ttl > 0 and time.time() - cached_at > ttl`; the
payload is returned only when it is a dict. -/
def cache_get_json (ttl : ℤ) (store : CacheStore) (now : ℤ) (key : String) :
    Option PyJson :=
  match store key with
  | none => none
  | some entry =>
    if ttl > 0 ∧ now - entry.cached_at > ttl then none
    else if entry.data.isDict then some entry.data else none

/-- `_cache_set_json` (src/pipeline_graph.py:155-177): a put with TTL `0`
returns before touching the store; otherwise the entry is written atomically
(temp file + `os.replace`), stamped with the current time. -/
def cache_set_json (ttl : ℤ) (store : CacheStore) (now : ℤ) (key : String)
    (data : PyJson) : CacheStore :=
  if ttl = 0 then store
  else fun k => if k = key then some ⟨now, data⟩ else store k

/-! ## Pipeline state (`PipelineState`, src/pipeline_graph.py:35-50)

Nested payloads that the source builds as dicts with a fixed key set
(story cards, the interactive story, the learning event, image steps, story
beats, the scenario seed) are modelled as structures with those keys. -/

/-- One story card (the dicts built by `_fallback_story_card`,
src/pipeline_graph.py:509-551). -/
structure StoryCard where
  title : PyStr
  topics : List PyStr
  importance : PyStr
  subtopics : List PyStr
  story : PyStr
  friend_explainers : List PyStr

/-- The `interactive_story` dict (src/pipeline_graph.py:898-904). -/
structure InteractiveStory where
  title : PyStr
  opening : PyStr
  checkpoint : PyStr
  boss_level : PyStr
  topic_storylines : List StoryCard

/-- The `learning_event` dict (src/pipeline_graph.py:914-924).  The float
`coverage_ratio` (rounded to 3 places in the source) is carried as the exact
rational `coverage_q`; no claim depends on the rounding. -/
structure LearningEvent where
  title : PyStr
  format : PyStr
  tasks : List PyStr
  subtopics : List PyStr
  concepts : List PyStr
  topic_storylines : List StoryCard
  interactive_story : InteractiveStory
  final_storytelling : PyStr
  coverage_q : ℚ

/-- The `scenario_seed` dict (src/pipeline_graph.py:382-386); the initial
empty dict is modelled by empty fields, matching `seed.get("focus", "")`. -/
structure ScenarioSeed where
  focus : PyStr
  secondary : List PyStr
  mode : PyStr

/-- One image slot of a story beat (src/pipeline_graph.py:1085-1091). -/
structure ImageStep where
  step_label : PyStr
  prompt : PyStr
  image_data : PyStr

/-- One story beat (src/pipeline_graph.py:1092-1098). -/
structure StoryBeat where
  label : PyStr
  narrative : PyStr
  is_decision : Bool
  choices : List PyStr
  image_steps : List ImageStep

/-- `PipelineState` (src/pipeline_graph.py:35-50). -/
structure PipelineState where
  raw_files : List PyStr
  extracted_text : PyStr
  cleaned_text : PyStr
  chunks : List PyStr
  concepts : List PyStr
  normalized_concepts : List PyStr
  priority_concepts : List PyStr
  scenario_seed : ScenarioSeed
  learning_event : LearningEvent
  todo_checklist : List PyStr
  interactive_story : InteractiveStory
  final_storytelling : PyStr
  story_beats : List StoryBeat
  llm_used : Bool
  llm_status : PyStr

/-- Empty interactive story (initial `{}`). -/
def emptyInteractiveStory : InteractiveStory := ⟨[], [], [], [], []⟩

/-- Empty learning event (initial `{}`). -/
def emptyLearningEvent : LearningEvent :=
  ⟨[], [], [], [], [], [], emptyInteractiveStory, [], 0⟩

/-- The initial state built by `run_pipeline` (src/pipeline_graph.py:1159-1175). -/
def initialPipelineState (raw_files : List PyStr) (extracted_text : PyStr) :
    PipelineState :=
  { raw_files := raw_files
    extracted_text := extracted_text
    cleaned_text := []
    chunks := []
    concepts := []
    normalized_concepts := []
    priority_concepts := []
    scenario_seed := ⟨[], [], []⟩
    learning_event := emptyLearningEvent
    todo_checklist := []
    interactive_story := emptyInteractiveStory
    final_storytelling := []
    story_beats := []
    llm_used := false
    llm_status := [] }

/-! ## Priority stage and scenario seed -/

/-- `int(math.ceil(n * 0.85))` for a list length `n`, i.e. `⌈17 n / 20⌉`,
computed as a natural-number division.  The float computation is exact enough:
for `n ≤ 11` no rounding error of `n * 0.85` can cross an integer boundary,
and for `n ≥ 12` both the float and the exact ceiling exceed the cap of 10
applied by the caller. -/
def ceil85 (n : Nat) : Nat := (17 * n + 19) / 20

/-- The inline coverage target of `estimate_priority`
(src/pipeline_graph.py:374): `max(1, min(10, int(math.ceil(len * 0.85))))`. -/
def priorityCoverageTarget (n : Nat) : Nat := max 1 (min 10 (ceil85 n))

/-- `estimate_priority` (src/pipeline_graph.py:366-376). -/
def estimate_priority (state : PipelineState) : PipelineState :=
  if state.normalized_concepts = [] then { state with priority_concepts := [] }
  else
    { state with
      priority_concepts :=
        state.normalized_concepts.take
          (priorityCoverageTarget state.normalized_concepts.length) }

/-- `select_scenario_seed` (src/pipeline_graph.py:379-387). -/
def select_scenario_seed (state : PipelineState) : PipelineState :=
  { state with
    scenario_seed :=
      { focus := state.priority_concepts.headD (pstr "general review")
        secondary := state.priority_concepts.tail
        mode := pstr "deterministic-placeholder" } }

/-! ## Learning-event fallback helpers (src/pipeline_graph.py:396-727) -/

/-- `_importance_for_rank` (src/pipeline_graph.py:396-404).  The float
comparisons `rank <= 0.3` / `rank <= 0.7` are modelled exactly over `ℚ`;
correctly rounded float division agrees with the rational comparison at and
away from these thresholds. -/
def importance_for_rank (index total : Nat) : PyStr :=
  if total ≤ 1 then pstr "high"
  else if ((index : ℚ) + 1) / total ≤ 3 / 10 then pstr "high"
  else if ((index : ℚ) + 1) / total ≤ 7 / 10 then pstr "medium"
  else pstr "low"

/-- Membership test of the character class in `r"^\s*[-*\d\).\]]+\s*"`
(src/pipeline_graph.py:414). -/
def isListMarkerChar (c : Char) : Bool :=
  c == '-' || c == '*' || c.isDigit || c == ')' || c == '.' || c == ']'

/-- `re.sub(r"^\s*[-*\d\).\]]+\s*", "", raw).strip()`
(src/pipeline_graph.py:414): the leading run of whitespace, marker characters
and whitespace is removed only when at least one marker character is present;
the result is then stripped. -/
def cleanChecklistItem (s : PyStr) : PyStr :=
  let ws := s.dropWhile Char.isWhitespace
  let stripped :=
    match ws with
    | [] => s
    | c :: _ =>
      if isListMarkerChar c then
        (ws.dropWhile isListMarkerChar).dropWhile Char.isWhitespace
      else s
  pyStrip stripped

/-- First loop of `_normalized_subtopic_checklist`
(src/pipeline_graph.py:413-421): clean each raw item, drop items shorter than
4 characters, deduplicate by lowercase key.  Returns `(cleaned, seen)`. -/
def checklistDedupe : List PyStr → List PyStr → List PyStr →
    List PyStr × List PyStr
  | [], cleaned, seen => (cleaned, seen)
  | raw :: rest, cleaned, seen =>
    let item := cleanChecklistItem raw
    if item.length < 4 then checklistDedupe rest cleaned seen
    else if pyLower item ∈ seen then checklistDedupe rest cleaned seen
    else checklistDedupe rest (cleaned ++ [item]) (seen ++ [pyLower item])

/-- Second loop of `_normalized_subtopic_checklist`
(src/pipeline_graph.py:439-444): extend `cleaned` with fallback items, again
deduplicating by lowercase key (no length filter or marker stripping here). -/
def checklistExtend : List PyStr → List PyStr → List PyStr →
    List PyStr × List PyStr
  | [], cleaned, seen => (cleaned, seen)
  | item :: rest, cleaned, seen =>
    if pyLower item ∈ seen then checklistExtend rest cleaned seen
    else checklistExtend rest (cleaned ++ [item]) (seen ++ [pyLower item])

/-- `_normalized_subtopic_checklist` (src/pipeline_graph.py:407-446). -/
def normalized_subtopic_checklist (focus : PyStr) (concepts secondary : List PyStr)
    (llm_items : List PyStr) (max_items : Nat) : List PyStr :=
  let cs := checklistDedupe llm_items [] []
  if 4 ≤ cs.1.length then cs.1.take max_items
  else
    let concept_pool0 := (concepts.map pyStrip).filter (· ≠ [])
    let concept_pool :=
      if concept_pool0 = [] then
        [if pyStrip focus = [] then pstr "core topic" else pyStrip focus]
      else concept_pool0
    let fallback :=
      concept_pool.map
        (fun c => c ++ pstr ": explain it clearly, then solve one exam-style question.")
      ++ [focus ++ pstr ": write a 5-line summary from memory."]
      ++ (match secondary with
          | [] => []
          | s :: _ =>
            [focus ++ pstr " + " ++ s ++ pstr ": connect them in one worked example."])
    (checklistExtend fallback cs.1 cs.2).1.take max_items

/-- `_pair_topics` (src/pipeline_graph.py:489-498). -/
def pair_topics : List PyStr → List (List PyStr)
  | [] => []
  | [a] => [[a]]
  | a :: b :: rest => [a, b] :: pair_topics rest

/-- `_story_min_words` (src/pipeline_graph.py:501-506). -/
def story_min_words (importance : PyStr) : Nat :=
  if importance = pstr "high" then 620
  else if importance = pstr "medium" then 520
  else 450

/-- The paragraph appended by each iteration of `_ensure_min_words`
(src/pipeline_graph.py:479-485). -/
def minWordsFiller (topic_label : PyStr) : PyStr :=
  pstr "\n\n"
  ++ pstr "You pause at your desk, look at the clock, and commit to one more round on "
  ++ topic_label ++ pstr ". "
  ++ pstr "You say the idea out loud, catch a weak sentence, and rebuild it into a sharp exam-ready explanation. "
  ++ pstr "You test yourself with one concrete example, then restate the same idea in simpler words so you can recall it under pressure."

/-- The `while` loop of `_ensure_min_words`, with explicit fuel.  Each
iteration appends `minWordsFiller`, which contains far more than one word, so
`min_words` iterations of fuel is always enough for the loop to reach its
exit condition exactly as in the source. -/
def ensure_min_words_go (fuel : Nat) (result : PyStr) (min_words : Nat)
    (topic_label : PyStr) : PyStr :=
  match fuel with
  | 0 => result
  | fuel + 1 =>
    if word_count result < min_words then
      ensure_min_words_go fuel (result ++ minWordsFiller topic_label) min_words
        topic_label
    else result

/-- `_ensure_min_words` (src/pipeline_graph.py:475-486). -/
def ensure_min_words (text : PyStr) (min_words : Nat) (topic_label : PyStr) :
    PyStr :=
  if min_words = 0 then pyStrip text
  else pyStrip (ensure_min_words_go min_words (pyStrip text) min_words topic_label)

/-- The base story text of `_fallback_story_card`
(src/pipeline_graph.py:521-535), with `first`/`second` interpolated. -/
def fallbackBaseStory (first second : PyStr) : PyStr :=
  pstr "You are one night away from the exam, and " ++ first ++ pstr " plus "
  ++ second ++ pstr " are waiting on your final revision map. "
  ++ pstr "You open your notes, draw a line between the two topics, and decide this is your mission for the next focused block: "
  ++ pstr "understand each idea, connect them in action, and speak the logic clearly enough to survive time pressure.\n\n"
  ++ pstr "You begin with " ++ first ++ pstr ". You don" ++ [apos]
  ++ pstr "t just memorize a definition; you build a scene around it. In your head, you walk through a question step by step, "
  ++ pstr "using " ++ first
  ++ pstr " as the key move that unlocks the next line of reasoning. You catch yourself writing something vague, stop, and rewrite it as if the "
  ++ pstr "examiner is reading every word. The more precise your sentence gets, the more confident you feel.\n\n"
  ++ pstr "Then you pivot to " ++ second
  ++ pstr ". You imagine the question changing slightly and ask yourself what stays the same and what must change. "
  ++ pstr "Now the story gets stronger: " ++ first
  ++ pstr " sets the direction, and " ++ second
  ++ pstr " decides how to execute it correctly. You test this link with a short worked path, "
  ++ pstr "and every step has a reason. If one reason sounds weak, you fix it immediately.\n\n"
  ++ pstr "You run a pressure moment: ninety seconds, no notes, one clean explanation. Your first attempt is rough, but you tighten it. "
  ++ pstr "Second attempt: better structure. Third attempt: direct, clear, exam-ready. You can now see the topic pair as one connected strategy, not two isolated definitions.\n\n"
  ++ pstr "Before closing the session, you summarize everything in your own words: what each topic means, how they interact, and what mistake you will avoid tomorrow. "
  ++ pstr "You read that summary once, close the page, and say it again from memory. This time, it sticks."

/-- `_fallback_story_card` (src/pipeline_graph.py:509-551). -/
def fallback_story_card (topics : List PyStr) (importance0 : PyStr) : StoryCard :=
  let clean_topics0 := (topics.map pyStrip).filter (· ≠ [])
  let clean_topics := if clean_topics0 = [] then [pstr "core concept"] else clean_topics0
  let importance :=
    if importance0 = pstr "high" ∨ importance0 = pstr "medium" ∨ importance0 = pstr "low"
    then importance0 else pstr "medium"
  let topic_label := pyJoin (pstr " + ") clean_topics
  let first := clean_topics.headD []
  let second := (clean_topics.drop 1).headD first
  { title := first ++ pstr " and " ++ second ++ pstr ": last-minute exam sync"
    topics := clean_topics.take 2
    importance := importance
    subtopics :=
      [first ++ pstr " core idea", second ++ pstr " core idea",
       first ++ pstr " <-> " ++ second ++ pstr " exam linkage"]
    story :=
      ensure_min_words (fallbackBaseStory first second) (story_min_words importance)
        topic_label
    friend_explainers :=
      [pstr "How would you explain " ++ first
        ++ pstr " to a friend in 30 seconds with one example?",
       pstr "If a question mixes " ++ first ++ pstr " and " ++ second
        ++ pstr ", what clue tells you which idea to apply first?",
       pstr "What is the most common mistake here, and how will you avoid it in the exam?"] }

/-- `_story_cards_to_checklist` (src/pipeline_graph.py:654-672). -/
def story_cards_to_checklist (cards : List StoryCard) : List PyStr :=
  cards.foldl
    (fun items card =>
      let clean_topics := (card.topics.map pyStrip).filter (· ≠ [])
      if clean_topics = [] then items
      else
        let topic_label := pyJoin (pstr " + ") clean_topics
        let subItems :=
          (((card.subtopics.take 2).map pyStrip).filter (· ≠ [])).map
            (fun s => topic_label ++ pstr ": revise " ++ s ++ pstr " with one worked example.")
        items ++ subItems
          ++ [topic_label ++ pstr ": explain the pair out loud in exam-ready language."])
    []

/-- The importance-label lookup of `_compose_story_text`
(src/pipeline_graph.py:690-694). -/
def importance_label (imp : PyStr) : PyStr :=
  if imp = pstr "high" then pstr "High Priority"
  else if imp = pstr "medium" then pstr "Medium Priority"
  else if imp = pstr "low" then pstr "Low Priority"
  else pstr "Priority"

/-- One block of `_compose_story_text` (src/pipeline_graph.py:684-715). -/
def compose_story_block (idx : Nat) (card : StoryCard) : PyStr :=
  let tl0 := pyJoin (pstr " + ") ((card.topics.map pyStrip).filter (· ≠ []))
  let topic_label := if tl0 = [] then pstr "core concepts" else tl0
  let impLabel := importance_label (pyLower (pyStrip card.importance))
  let ct0 := pyStrip card.title
  let card_title := if ct0 = [] then topic_label ++ pstr " story card" else ct0
  let st0 :=
    pyJoin (pstr "\n")
      (((card.subtopics.map pyStrip).filter (· ≠ [])).map (fun s => pstr "- " ++ s))
  let subtopic_text := if st0 = [] then pstr "- quick review" else st0
  let fr0 :=
    pyJoin (pstr "\n")
      (((card.friend_explainers.map pyStrip).filter (· ≠ [])).map
        (fun s => pstr "- " ++ s))
  let friend_text := if fr0 = [] then pstr "- explain this topic pair to a friend." else fr0
  pyStrip
    (pstr "Story Card " ++ (Nat.repr (idx + 1)).data ++ pstr ": " ++ card_title
      ++ pstr "\n" ++ pstr "Topics: " ++ topic_label ++ pstr " (" ++ impLabel
      ++ pstr ")\n" ++ pstr "Subtopics:\n" ++ subtopic_text ++ pstr "\n\n"
      ++ pstr "Story:\n" ++ pyStrip card.story ++ pstr "\n\n"
      ++ pstr "Friend-style explainers:\n" ++ friend_text)

/-- Everything of `_compose_story_text` (src/pipeline_graph.py:675-727) after
the leading `title`; factored out so that the title can be reasoned about
without evaluating the story blocks. -/
def compose_story_rest (opening checkpoint boss_level : PyStr)
    (story_cards : List StoryCard) (checklist : List PyStr) : PyStr :=
  let blocks := story_cards.enum.map (fun p => compose_story_block p.1 p.2)
  let checklist_text :=
    if checklist = [] then pstr "No checklist generated."
    else pyJoin (pstr "\n- ") checklist
  pstr "\n\n" ++ pstr "Act 1 - Mission Brief:\n" ++ opening ++ pstr "\n\n"
  ++ pstr "Act 2 - Story Cards:\n\n" ++ pyJoin (pstr "\n\n") blocks ++ pstr "\n\n"
  ++ pstr "Act 3 - Checkpoint:\n" ++ checkpoint ++ pstr "\n\n"
  ++ pstr "Final Boss:\n" ++ boss_level ++ pstr "\n\n"
  ++ pstr "Mission Checklist:\n- " ++ checklist_text

/-- `_compose_story_text` (src/pipeline_graph.py:675-727): the returned string
starts with the title, followed by the acts, blocks and checklist. -/
def compose_story_text (title opening checkpoint boss_level : PyStr)
    (story_cards : List StoryCard) (checklist : List PyStr) : PyStr :=
  title ++ compose_story_rest opening checkpoint boss_level story_cards checklist

/-! ## The fallback branch of `generate_learning_event`

`generate_learning_event` (src/pipeline_graph.py:730-932) first derives the
concept list and focus from the state (lines 732-763), then calls `_llm_json`.
When the external call fails (`_llm_json` returns the empty dict: no client,
request failure, or unparseable response — with cache TTL 0 a fresh run also
gets no cached payload), the `if llm_result:` branch is skipped and the
deterministic fallback (lines 885-932) runs.  The intermediate values of that
path are factored into `gle_*` definitions, one per local variable. -/

/-- `all_concepts` (src/pipeline_graph.py:733). -/
def gle_all_concepts (state : PipelineState) : List PyStr :=
  (state.normalized_concepts.map pyStrip).filter (· ≠ [])

/-- `prioritized` (src/pipeline_graph.py:734-736). -/
def gle_prioritized (state : PipelineState) : List PyStr :=
  let p := (state.priority_concepts.map pyStrip).filter (· ≠ [])
  if p = [] then (gle_all_concepts state).take 10 else p

/-- First dedupe loop of `generate_learning_event`
(src/pipeline_graph.py:738-747): skip empty or already-seen lowercase keys,
stop once 10 concepts are collected.  Returns `(concepts, seen)`. -/
def gleDedupeLoop1 : List PyStr → List PyStr → List PyStr →
    List PyStr × List PyStr
  | [], acc, seen => (acc, seen)
  | c :: rest, acc, seen =>
    let key := pyLower c
    if key = [] ∨ key ∈ seen then gleDedupeLoop1 rest acc seen
    else if 10 ≤ (acc ++ [c]).length then (acc ++ [c], seen ++ [key])
    else gleDedupeLoop1 rest (acc ++ [c]) (seen ++ [key])

/-- Second dedupe loop (src/pipeline_graph.py:749-757): same, but without the
empty-key test. -/
def gleDedupeLoop2 : List PyStr → List PyStr → List PyStr →
    List PyStr × List PyStr
  | [], acc, seen => (acc, seen)
  | c :: rest, acc, seen =>
    let key := pyLower c
    if key ∈ seen then gleDedupeLoop2 rest acc seen
    else if 10 ≤ (acc ++ [c]).length then (acc ++ [c], seen ++ [key])
    else gleDedupeLoop2 rest (acc ++ [c]) (seen ++ [key])

/-- `concepts` after both dedupe loops (src/pipeline_graph.py:738-757). -/
def gle_concepts (state : PipelineState) : List PyStr :=
  let cs := gleDedupeLoop1 (gle_prioritized state) [] []
  if cs.1 = [] ∧ gle_all_concepts state ≠ [] then
    (gleDedupeLoop2 (gle_all_concepts state) cs.1 cs.2).1
  else cs.1

/-- `focus` (src/pipeline_graph.py:759). -/
def gle_focus (state : PipelineState) : PyStr :=
  let f := pyStrip state.scenario_seed.focus
  if f = [] then (gle_concepts state).headD (pstr "general review") else f

/-- `concepts` after the `if not concepts` guard (src/pipeline_graph.py:760-761). -/
def gle_concepts2 (state : PipelineState) : List PyStr :=
  if gle_concepts state = [] then [gle_focus state] else gle_concepts state

/-- `secondary` (src/pipeline_graph.py:762). -/
def gle_secondary (state : PipelineState) : List PyStr :=
  (gle_concepts2 state).filter (fun c => pyLower c ≠ pyLower (gle_focus state))

/-- `topic_pairs` (src/pipeline_graph.py:763). -/
def gle_topic_pairs (state : PipelineState) : List (List PyStr) :=
  pair_topics (gle_concepts2 state)

/-- `story_cards` of the fallback branch (src/pipeline_graph.py:885-888). -/
def gle_story_cards (state : PipelineState) : List StoryCard :=
  (gle_topic_pairs state).enum.map
    (fun p => fallback_story_card p.2
      (importance_for_rank p.1 (max (gle_topic_pairs state).length 1)))

/-- `fallback_items` (src/pipeline_graph.py:889). -/
def gle_fallback_items (state : PipelineState) : List PyStr :=
  story_cards_to_checklist (gle_story_cards state)

/-- `checklist` of the fallback branch (src/pipeline_graph.py:890-896):
note `max_items = max(1, len(concepts))`. -/
def gle_checklist (state : PipelineState) : List PyStr :=
  normalized_subtopic_checklist (gle_focus state) (gle_concepts2 state)
    (gle_secondary state) (gle_fallback_items state)
    (max 1 (gle_concepts2 state).length)

/-- `story` of the fallback branch (src/pipeline_graph.py:898-904). -/
def gle_story (state : PipelineState) : InteractiveStory :=
  { title := pstr "LastMinute Mission: " ++ gle_focus state
    opening := pstr "You are 24 hours from the exam. Your mission starts with "
      ++ gle_focus state ++ pstr "."
    checkpoint := pstr "Unlock each checkpoint by explaining each story card to a friend in your own words."
    boss_level := pstr "Teach the concept back in plain language without notes."
    topic_storylines := gle_story_cards state }

/-- `story_text` of the fallback branch (src/pipeline_graph.py:905-912). -/
def gle_story_text (state : PipelineState) : PyStr :=
  compose_story_text (gle_story state).title (gle_story state).opening
    (gle_story state).checkpoint (gle_story state).boss_level
    (gle_story_cards state) (gle_checklist state)

/-- `event` of the fallback branch (src/pipeline_graph.py:914-924). -/
def gle_event (state : PipelineState) : LearningEvent :=
  { title := pstr "mission: " ++ gle_focus state
    format := pstr "guided-story-pack"
    tasks := gle_checklist state
    subtopics := gle_checklist state
    concepts := gle_concepts2 state
    topic_storylines := gle_story_cards state
    interactive_story := gle_story state
    final_storytelling := gle_story_text state
    coverage_q := ((gle_concepts2 state).length : ℚ)
      / (max (gle_all_concepts state).length 1 : ℚ) }

/-- The fallback return of `generate_learning_event`
(src/pipeline_graph.py:925-932): the `llm_used` flag is not touched; the
status keeps the failure string when nonempty. -/
def generate_learning_event_fallback (llm_status : PyStr)
    (state : PipelineState) : PipelineState :=
  { state with
    learning_event := gle_event state
    todo_checklist := gle_checklist state
    interactive_story := gle_story state
    final_storytelling := gle_story_text state
    llm_status := if llm_status ≠ [] then llm_status else state.llm_status }

/-- The fallback return of `generate_story_visuals`
(src/pipeline_graph.py:1076-1078): when `_llm_json` yields no beats the stage
only sets `story_beats := []`. -/
def generate_story_visuals_fallback (state : PipelineState) : PipelineState :=
  { state with story_beats := [] }

/-- Substring containment over embedded Python strings. -/
def containsSub (s sub : PyStr) : Prop := ∃ p q, s = p ++ (sub ++ q)

/-! ## The C1 end-to-end scenario

Normalized concepts exactly `["newton's second law", "free body diagram",
"acceleration"]`, cache TTL 0 (so `_llm_json` has no cached payload to serve
on a fresh run), every external generative call failing (so `_llm_json`
returns `({}, error)` and both LLM-dependent stages take their fallback
branches). -/

/-- The concept string `"newton's second law"`. -/
def newtonsSecondLaw : PyStr := pstr "newton" ++ [apos] ++ pstr "s second law"

/-- The three normalized concepts of the scenario. -/
def c1_concepts : List PyStr :=
  [newtonsSecondLaw, pstr "free body diagram", pstr "acceleration"]

/-- Scenario state entering `estimate_priority`. -/
def c1_state0 : PipelineState :=
  { initialPipelineState [] [] with normalized_concepts := c1_concepts }

/-- Scenario state after `estimate_priority` and `select_scenario_seed`. -/
def c1_seeded : PipelineState := select_scenario_seed (estimate_priority c1_state0)

/-- Final scenario state: learning-event fallback (the external call failed
with a nonempty status string) followed by the visuals fallback. -/
def c1_final : PipelineState :=
  generate_story_visuals_fallback
    (generate_learning_event_fallback (pstr "missing GEMINI_API_KEY/GOOGLE_API_KEY")
      c1_seeded)

/-- A concrete state with 12 normalized concepts (exercising the cap of 10). -/
def c9_wstate : PipelineState :=
  { initialPipelineState [] [] with
    normalized_concepts :=
      [pstr "a", pstr "b", pstr "c", pstr "d", pstr "e", pstr "f", pstr "g",
       pstr "h", pstr "i", pstr "j", pstr "k", pstr "l"] }

/-! ## Rate-limited retrying image client (`_generate_image`)

`src/pipeline_graph.py:945-1023`.  The HTTP endpoint is modelled as an oracle
mapping the attempt number to a response: either a status code with a parsed
JSON body, or a raised network error.  The constants mirror
`_IMG_MAX_RETRIES = 4` and `_IMG_BASE_BACKOFF = 5.0`. -/

/-- The `inlineData` dict of a response part. -/
structure ImgInline where
  data : String
  mimeType : Option String

/-- One part of the first candidate content. -/
structure ImgPart where
  inlineData : Option ImgInline

/-- One response candidate: `candidates[0].get("content", {}).get("parts", [])`. -/
structure ImgCandidate where
  parts : List ImgPart

/-- The parsed JSON body of a 200 response. -/
structure ImgBody where
  candidates : List ImgCandidate

/-- One outcome of `_http.post`: an HTTP status with body, or a raised
network exception. -/
inductive ImgResponse where
  | httpResp (status : Nat) (body : ImgBody)
  | raised

/-- `_IMG_MAX_RETRIES` (src/pipeline_graph.py:948). -/
def imgMaxRetries : Nat := 4

/-- `_IMG_BASE_BACKOFF * (2 ** attempt)` (src/pipeline_graph.py:1003); the
float arithmetic on 5.0 is exact, so seconds are carried as naturals. -/
def imgBackoff (attempt : Nat) : Nat := 5 * 2 ^ attempt

/-- The inner loop over `parts` (src/pipeline_graph.py:1013-1017): the first
part with a truthy `inlineData` and truthy `data` yields a data URL (with mime
type defaulting to `image/png`). -/
def findInlineImage : List ImgPart → Option String
  | [] => none
  | part :: rest =>
    match part.inlineData with
    | some inline =>
      if inline.data ≠ "" then
        some ("data:" ++ inline.mimeType.getD "image/png" ++ ";base64," ++ inline.data)
      else findInlineImage rest
    | none => findInlineImage rest

/-- Processing of a 200 body (src/pipeline_graph.py:1008-1018): no candidates
or no usable inline part both return immediately with no image. -/
def extractImage (body : ImgBody) : Option String :=
  match body.candidates with
  | [] => none
  | c :: _ => findInlineImage c.parts

/-- Observable outcome of one `_generate_image` call: the returned value, the
number of dispatched HTTP attempts, and the backoff sleeps performed (in
seconds, in order). -/
structure ImgRun where
  result : Option String
  attempts : Nat
  sleeps : List Nat

/-- The retry loop of `_generate_image` (src/pipeline_graph.py:993-1023),
with the loop bound `range(_IMG_MAX_RETRIES)` expressed as fuel:
`attempt` is the current index, `fuel = _IMG_MAX_RETRIES - attempt`.
Status 429/500/502/503 sleeps `5 * 2 ** attempt` then retries; any other
non-200 status retries immediately without sleeping; a 200 response returns
`extractImage` of its body at once; a raised network error sleeps (except on
the final attempt) and retries. -/
def generate_image_go (responses : Nat → ImgResponse) (attempt fuel : Nat) :
    ImgRun :=
  match fuel with
  | 0 => ⟨none, 0, []⟩
  | fuel + 1 =>
    match responses attempt with
    | .raised =>
      let rest := generate_image_go responses (attempt + 1) fuel
      if attempt < imgMaxRetries - 1 then
        ⟨rest.result, rest.attempts + 1, imgBackoff attempt :: rest.sleeps⟩
      else
        ⟨rest.result, rest.attempts + 1, rest.sleeps⟩
    | .httpResp code body =>
      if code = 429 ∨ code = 500 ∨ code = 502 ∨ code = 503 then
        let rest := generate_image_go responses (attempt + 1) fuel
        ⟨rest.result, rest.attempts + 1, imgBackoff attempt :: rest.sleeps⟩
      else if code ≠ 200 then
        let rest := generate_image_go responses (attempt + 1) fuel
        ⟨rest.result, rest.attempts + 1, rest.sleeps⟩
      else
        ⟨extractImage body, 1, []⟩

/-- `_generate_image` (src/pipeline_graph.py:993-1023) given a response
oracle, starting at attempt 0 with the full retry budget. -/
def generate_image (responses : Nat → ImgResponse) : ImgRun :=
  generate_image_go responses 0 imgMaxRetries

/-- A transient/overload outcome: HTTP 429/500/502/503 or a raised error. -/
def isTransientResponse : ImgResponse → Prop
  | .raised => True
  | .httpResp code _ => code = 429 ∨ code = 500 ∨ code = 502 ∨ code = 503

/-! ## Global pacing of `_generate_image` (src/pipeline_graph.py:993-999)

Each attempt enters the critical section guarded by `_IMG_LOCK`: it reads the
monotonic clock (`now`), computes `wait = _IMG_MIN_INTERVAL - (now -
_IMG_LAST_CALL)`, sleeps `wait` when positive, then stores a fresh monotonic
reading into `_IMG_LAST_CALL` — all before the network call is issued.  The
lock serializes the sections, so a run is a fold over the sequence of
sections; `slack ≥ 0` models that `time.sleep(w)` suspends for at least `w`
and that the second clock reading can only be later. -/

/-- `_IMG_MIN_INTERVAL` (src/pipeline_graph.py:947). -/
def imgMinInterval : ℚ := 4

/-- The wait computed under the lock (src/pipeline_graph.py:996). -/
def limiterWait (last now : ℚ) : ℚ := imgMinInterval - (now - last)

/-- The timestamp stored into `_IMG_LAST_CALL` by one critical section that
entered with clock `now` while the stored timestamp was `last`. -/
def dispatchTimestamp (last now slack : ℚ) : ℚ :=
  (if 0 < limiterWait last now then now + limiterWait last now else now) + slack

/-- The recorded dispatch timestamps of a serialized sequence of critical
sections, given each section's entry clock and nonnegative slack. -/
def limiterRun (last : ℚ) : List (ℚ × ℚ) → List ℚ
  | [] => []
  | (now, slack) :: rest =>
    dispatchTimestamp last now slack
      :: limiterRun (dispatchTimestamp last now slack) rest

/-! ## Fan-out executor of `generate_story_visuals`

`src/pipeline_graph.py:1100-1124`.  Jobs are `(beat index, step index, prompt)`
triples collected from the beats; each worker returns
`(beat index, step index, image-or-none)` and `as_completed` yields these
results in an arbitrary completion order; the merge writes each truthy result
back into `beats[bi]["image_steps"][si]["image_data"]` by direct index
lookup. -/

/-- In-place update of one list element, when the index is present. -/
def updateAt {α : Type} (l : List α) (i : Nat) (f : α → α) : List α :=
  match l, i with
  | [], _ => []
  | x :: xs, 0 => f x :: xs
  | x :: xs, i + 1 => x :: updateAt xs i f

/-- The inner loop of the job collection (src/pipeline_graph.py:1111-1114):
`for si, step in enumerate(beat["image_steps"]): if step.get("prompt"): ...`,
with `si` starting at the given offset. -/
def collectStepJobs (bi si : Nat) : List ImageStep → List (Nat × Nat × PyStr)
  | [] => []
  | st :: rest =>
    if st.prompt ≠ [] then (bi, si, st.prompt) :: collectStepJobs bi (si + 1) rest
    else collectStepJobs bi (si + 1) rest

/-- The job collection of `generate_story_visuals`
(src/pipeline_graph.py:1110-1114): one job per image step with a nonempty
prompt, keyed by its originating `(beat, step)` indices. -/
def collectImageJobs (bi : Nat) : List StoryBeat → List (Nat × Nat × PyStr)
  | [] => []
  | beat :: rest =>
    collectStepJobs bi 0 beat.image_steps ++ collectImageJobs (bi + 1) rest

/-- Merging one completed job result (src/pipeline_graph.py:1117-1123):
`if img: beats[bi]["image_steps"][si]["image_data"] = img` — the write happens
only for a truthy (non-`None`, nonempty) image. -/
def applyImageResult (beats : List StoryBeat) : Nat × Nat × Option PyStr → List StoryBeat
  | (_, _, none) => beats
  | (bi, si, some img) =>
    if img = [] then beats
    else
      updateAt beats bi (fun beat =>
        { beat with image_steps :=
            updateAt beat.image_steps si (fun st => { st with image_data := img }) })

/-- The merge loop over `as_completed(futures)`
(src/pipeline_graph.py:1117-1123), folding the results in completion order. -/
def mergeImageResults (beats : List StoryBeat)
    (results : List (Nat × Nat × Option PyStr)) : List StoryBeat :=
  results.foldl applyImageResult beats

/-- The image payload currently stored at slot `(b, s)`. -/
def getSlotImage (beats : List StoryBeat) (b s : Nat) : Option PyStr :=
  (beats[b]?.bind (fun beat => beat.image_steps[s]?)).map (fun st => st.image_data)

/-- The slot key of a job result. -/
def resultKey (r : Nat × Nat × Option PyStr) : Nat × Nat := (r.1, r.2.1)

/-- The three-job batch of the specification example: slots `(0,0)`, `(0,1)`
and `(1,0)` with prompts `"a"`, `"b"`, `"c"`. -/
def c8_beats : List StoryBeat :=
  [⟨[], [], false, [], [⟨[], pstr "a", []⟩, ⟨[], pstr "b", []⟩]⟩,
   ⟨[], [], false, [], [⟨[], pstr "c", []⟩]⟩]

/-- The worker results of the example, keyed by their originating slots. -/
def c8_results : List (Nat × Nat × Option PyStr) :=
  [(0, 0, some (pstr "img-a")), (0, 1, some (pstr "img-b")),
   (1, 0, some (pstr "img-c"))]

/-- A completion order in which job `(0, 1)` finishes first. -/
def c8_order : List (Nat × Nat × Option PyStr) :=
  [(0, 1, some (pstr "img-b")), (0, 0, some (pstr "img-a")),
   (1, 0, some (pstr "img-c"))]

/-- The slot key of a collected job. -/
def jobKey (j : Nat × Nat × PyStr) : Nat × Nat := (j.1, j.2.1)

/-- The worker function `_gen_step_image` applied across a job list
(src/pipeline_graph.py:1100-1116): the network call is abstracted as `gen`;
each job keeps its originating indices. -/
def runImageJobs (gen : PyStr → Option PyStr) (jobs : List (Nat × Nat × PyStr)) :
    List (Nat × Nat × Option PyStr) :=
  jobs.map (fun j => (j.1, j.2.1, gen j.2.2))

/-! ## Traced run (`build_graph` / `run_pipeline_with_trace`)

`src/pipeline_graph.py:1127-1238`.  `build_graph` declares 10 nodes and chains
them linearly in declaration order; `run_pipeline_with_trace` streams one
update dict per executed node (LangGraph "updates" mode yields exactly the
dict the node returned) and records
`updated_fields = list(node_update.keys())`.  Every return site of every
stage returns `{**state, ...}` — a dict spreading the whole state — so every
node update carries all 15 state keys in state-key order, whichever branch
ran.  Only the key structure matters to the trace shape, so the trace is
modelled at the level of stage names and returned-dict key lists. -/

/-- The 15 `PipelineState` keys (src/pipeline_graph.py:35-50), in declaration
order — which is also the key order of the initial state dict
(src/pipeline_graph.py:1198-1214). -/
def pipelineStateFields : List String :=
  ["raw_files", "extracted_text", "cleaned_text", "chunks", "concepts",
   "normalized_concepts", "priority_concepts", "scenario_seed",
   "learning_event", "todo_checklist", "interactive_story",
   "final_storytelling", "story_beats", "llm_used", "llm_status"]

/-- The 10 node names added by `build_graph` (src/pipeline_graph.py:1129-1138),
in declaration order; the edges (lines 1140-1150) chain them in this same
order. -/
def pipelineStageNames : List String :=
  ["store_raw_files", "extract_text", "clean_text", "chunk_text",
   "concept_extraction", "normalize_concepts", "estimate_priority",
   "select_scenario_seed", "generate_learning_event", "generate_story_visuals"]

/-- Key order of a Python dict display `{**state, k1: v1, ...}`: base keys
keep their positions (overridden in place), genuinely new keys follow in
update order. -/
def dictMergeKeys (base updates : List String) : List String :=
  base ++ updates.filter (fun k => ¬ k ∈ base)

/-- One trace event per stage, in execution order, carrying the keys of the
dict that stage returns: each stage's explicit updates are merged over the
full spread state (for stages whose branches update different key subsets,
every branch's keys are state fields, so the merged key list is the same —
the representative branch is noted per stage). -/
def pipelineTraceEvents : List (String × List String) :=
  [("store_raw_files", dictMergeKeys pipelineStateFields ["raw_files"]),
   ("extract_text", dictMergeKeys pipelineStateFields ["extracted_text"]),
   ("clean_text", dictMergeKeys pipelineStateFields ["cleaned_text"]),
   ("chunk_text", dictMergeKeys pipelineStateFields ["chunks"]),
   ("concept_extraction",
     dictMergeKeys pipelineStateFields ["concepts", "llm_used", "llm_status"]),
   ("normalize_concepts",
     dictMergeKeys pipelineStateFields ["normalized_concepts"]),
   ("estimate_priority", dictMergeKeys pipelineStateFields ["priority_concepts"]),
   ("select_scenario_seed", dictMergeKeys pipelineStateFields ["scenario_seed"]),
   ("generate_learning_event",
     dictMergeKeys pipelineStateFields
       ["learning_event", "todo_checklist", "interactive_story",
        "final_storytelling", "llm_used", "llm_status"]),
   ("generate_story_visuals", dictMergeKeys pipelineStateFields ["story_beats"])]

/-- Modelled from the spec: the owned fields of each stage, i.e. the fields
its contract documents it as overwriting.  The code carries no such table;
this is the spec's stage list (store inputs -> raw file ids, extract ->
extracted text, clean -> cleaned text, chunk -> chunks, concept extraction ->
concepts and model flags, normalize -> normalized concepts, prioritize ->
priority subset, seed -> scenario seed, learning event -> event, checklist,
story and text and model flags, visuals -> story beats). -/
def stageOwnedFields (stage : String) : List String :=
  if stage = "store_raw_files" then ["raw_files"]
  else if stage = "extract_text" then ["extracted_text"]
  else if stage = "clean_text" then ["cleaned_text"]
  else if stage = "chunk_text" then ["chunks"]
  else if stage = "concept_extraction" then ["concepts", "llm_used", "llm_status"]
  else if stage = "normalize_concepts" then ["normalized_concepts"]
  else if stage = "estimate_priority" then ["priority_concepts"]
  else if stage = "select_scenario_seed" then ["scenario_seed"]
  else if stage = "generate_learning_event" then
    ["learning_event", "todo_checklist", "interactive_story",
     "final_storytelling", "llm_used", "llm_status"]
  else if stage = "generate_story_visuals" then ["story_beats"]
  else []

/-! ## Theorems -/

/-- The float expression `int(math.ceil(n * 0.85))` of `estimate_priority`,
read exactly as the rational ceiling `⌈17 n / 20⌉`, equals the natural-number
division `(17 n + 19) / 20`. -/
theorem ceil85_eq (n : ℕ) (hn : 0 < n) :
    ⌈((17 * n : ℚ)) / 20⌉₊ = ceil85 n := by
  have h1 : 17 * n ≤ (17 * n + 19) / 20 * 20 := by omega
  have h2 : (17 * n + 19) / 20 * 20 < 17 * n + 20 := by omega
  have h3 : 1 ≤ (17 * n + 19) / 20 := by omega
  have h1q : (17 * n : ℚ) ≤ ((17 * n + 19) / 20 : ℕ) * 20 := by exact_mod_cast h1
  have h2q : (((17 * n + 19) / 20 : ℕ) : ℚ) * 20 < 17 * n + 20 := by exact_mod_cast h2
  unfold ceil85
  rw [Nat.ceil_eq_iff (by omega)]
  constructor
  · rw [Nat.cast_sub h3]
    rw [lt_div_iff₀ (by norm_num : (0 : ℚ) < 20)]
    linarith
  · rw [div_le_iff₀ (by norm_num : (0 : ℚ) < 20)]
    linarith

/-- C5: with TTL > 0, a put followed by a get on the same key returns exactly
the stored dict payload whenever the elapsed time is at most the TTL, and
returns absent whenever the elapsed time exceeds the TTL. -/
theorem cache_put_get_ttl (ttl : ℤ) (store : CacheStore) (tWrite tRead : ℤ)
    (key : String) (fields : List (String × PyJson)) (httl : 0 < ttl) :
    (tRead - tWrite ≤ ttl →
      cache_get_json ttl (cache_set_json ttl store tWrite key (.obj fields))
        tRead key = some (.obj fields))
    ∧ (ttl < tRead - tWrite →
      cache_get_json ttl (cache_set_json ttl store tWrite key (.obj fields))
        tRead key = none) := by
  have hne : ttl ≠ 0 := by omega
  have hstore : cache_set_json ttl store tWrite key (.obj fields) key
      = some ⟨tWrite, .obj fields⟩ := by
    simp [cache_set_json, hne]
  constructor
  · intro hin
    simp only [cache_get_json, hstore]
    rw [if_neg (by simp only [not_and, not_lt]; intro _; omega)]
    simp [PyJson.isDict]
  · intro hout
    simp only [cache_get_json, hstore]
    rw [if_pos ⟨httl, by omega⟩]

/-- C5 witness: an entry written at time 0 with TTL 3600 is visible at time 1
and absent at time 3601. -/
theorem cache_put_get_ttl_witness :
    cache_get_json 3600 (cache_set_json 3600 emptyCacheStore 0 "k" (.obj []))
      1 "k" = some (.obj [])
    ∧ cache_get_json 3600 (cache_set_json 3600 emptyCacheStore 0 "k" (.obj []))
      3601 "k" = none :=
  ⟨(cache_put_get_ttl 3600 emptyCacheStore 0 1 "k" [] (by decide)).1 (by decide),
   (cache_put_get_ttl 3600 emptyCacheStore 0 3601 "k" [] (by decide)).2 (by decide)⟩

/-- C6: when the configured TTL is 0 a cache put is a no-op: the store is
returned unchanged, no entry is created or modified. -/
theorem cache_set_ttl_zero_noop (store : CacheStore) (now : ℤ) (key : String)
    (data : PyJson) :
    cache_set_json 0 store now key data = store := by
  simp [cache_set_json]

/-- C10: when the configured TTL is 0 the read path skips the expiry check:
a pre-existing well-formed (dict-payload) entry is returned no matter how old
it is. -/
theorem cache_get_ttl_zero_serves_any_age (store : CacheStore) (now : ℤ)
    (key : String) (entry : CacheEntry) (fields : List (String × PyJson))
    (hentry : store key = some entry) (hdict : entry.data = .obj fields) :
    cache_get_json 0 store now key = some entry.data := by
  simp only [cache_get_json, hentry]
  rw [if_neg (by omega), if_pos (by simp [hdict, PyJson.isDict])]

/-- C10 witness: with TTL 0, an entry a billion seconds old is still served. -/
theorem cache_get_ttl_zero_serves_any_age_witness :
    cache_get_json 0
      (cache_set_json 3600 emptyCacheStore (-1000000000) "k" (.obj [])) 0 "k"
      = some (PyJson.obj []) :=
  cache_get_ttl_zero_serves_any_age
    (cache_set_json 3600 emptyCacheStore (-1000000000) "k" (.obj []))
    0 "k" ⟨-1000000000, .obj []⟩ [] (by rfl) rfl

/-- C9: `estimate_priority` selects exactly the first
`max(1, min(10, ceil(n * 0.85)))` normalized concepts in their existing rank
order (here `0.85 = 17/20`), and yields the empty list for an empty input. -/
theorem estimate_priority_selects_ranked_head (state : PipelineState) :
    (state.normalized_concepts = [] →
      (estimate_priority state).priority_concepts = [])
    ∧ (state.normalized_concepts ≠ [] →
        (estimate_priority state).priority_concepts
          = state.normalized_concepts.take
              (max 1 (min 10 ⌈((17 * state.normalized_concepts.length : ℚ)) / 20⌉₊))
        ∧ (estimate_priority state).priority_concepts.length
          = max 1 (min 10 ⌈((17 * state.normalized_concepts.length : ℚ)) / 20⌉₊)) := by
  constructor
  · intro h
    simp [estimate_priority, h]
  · intro h
    have hn : 0 < state.normalized_concepts.length := List.length_pos.mpr h
    have hceil := ceil85_eq state.normalized_concepts.length hn
    have hle : ceil85 state.normalized_concepts.length
        ≤ state.normalized_concepts.length := by
      unfold ceil85; omega
    refine ⟨?_, ?_⟩
    · rw [hceil]
      simp [estimate_priority, h, priorityCoverageTarget]
    · rw [hceil]
      simp only [estimate_priority, priorityCoverageTarget, if_neg h,
        List.length_take]
      omega

/-- C9 witness: on a state with 12 concepts the selected prefix is the first
`max(1, min(10, ceil(12 * 0.85))) = 10` concepts. -/
theorem estimate_priority_selects_ranked_head_witness :
    (estimate_priority c9_wstate).priority_concepts
      = c9_wstate.normalized_concepts.take
          (max 1 (min 10 ⌈((17 * c9_wstate.normalized_concepts.length : ℚ)) / 20⌉₊))
    ∧ (estimate_priority c9_wstate).priority_concepts.length
      = max 1 (min 10 ⌈((17 * c9_wstate.normalized_concepts.length : ℚ)) / 20⌉₊) :=
  (estimate_priority_selects_ranked_head c9_wstate).2 (by decide)

/-- C1 counterexample: in the stated scenario (normalized concepts exactly
`["newton's second law", "free body diagram", "acceleration"]`, TTL 0, every
external generative call failing) the fallback todo checklist has exactly 3
items, so the claimed "at least 4 items" is false: the checklist is truncated
to `max_items = max(1, len(concepts)) = 3`. -/
theorem c1_checklist_has_three_items : c1_final.todo_checklist.length = 3
    ∧ ¬ (4 ≤ c1_final.todo_checklist.length) := by
  have h : c1_final.todo_checklist.length = 3 := by decide
  exact ⟨h, by rw [h]; decide⟩

/-- C1 (amended): in the stated scenario the pipeline keeps
`ceil(3 * 0.85) = 3` priority concepts, the scenario focus is
`"newton's second law"`, the fallback todo checklist contains exactly 3 items
(not at least 4: it is capped at the number of kept concepts), the final story
text contains the focus concept, and the llm-used flag is false. -/
theorem c1_scenario_end_to_end :
    (estimate_priority c1_state0).priority_concepts = c1_concepts
    ∧ c1_seeded.scenario_seed.focus = newtonsSecondLaw
    ∧ c1_final.todo_checklist.length = 3
    ∧ containsSub c1_final.final_storytelling newtonsSecondLaw
    ∧ c1_final.llm_used = false := by
  refine ⟨by decide, by decide, by decide, ?_, by decide⟩
  have hfocus : gle_focus c1_seeded = newtonsSecondLaw := by decide
  refine ⟨pstr "LastMinute Mission: ",
    compose_story_rest (gle_story c1_seeded).opening (gle_story c1_seeded).checkpoint
      (gle_story c1_seeded).boss_level (gle_story_cards c1_seeded)
      (gle_checklist c1_seeded), ?_⟩
  have h1 : c1_final.final_storytelling
      = (pstr "LastMinute Mission: " ++ gle_focus c1_seeded)
        ++ compose_story_rest (gle_story c1_seeded).opening
          (gle_story c1_seeded).checkpoint (gle_story c1_seeded).boss_level
          (gle_story_cards c1_seeded) (gle_checklist c1_seeded) := rfl
  rw [h1, hfocus, List.append_assoc]

/-- One transient response before the final attempt: the attempt is
dispatched, the backoff `5 * 2 ^ attempt` is slept, and the loop continues. -/
theorem generate_image_go_transient_step (responses : Nat → ImgResponse)
    (attempt fuel : Nat) (ht : isTransientResponse (responses attempt))
    (hlt : attempt < imgMaxRetries - 1) :
    generate_image_go responses attempt (fuel + 1)
      = ⟨(generate_image_go responses (attempt + 1) fuel).result,
         (generate_image_go responses (attempt + 1) fuel).attempts + 1,
         imgBackoff attempt :: (generate_image_go responses (attempt + 1) fuel).sleeps⟩ := by
  cases hr : responses attempt with
  | raised =>
    simp only [generate_image_go, hr, if_pos hlt]
  | httpResp code body =>
    have ht' : code = 429 ∨ code = 500 ∨ code = 502 ∨ code = 503 := by
      rw [hr] at ht; exact ht
    simp only [generate_image_go, hr]
    rw [if_pos ht']

/-- A transient response on the final attempt: the attempt is dispatched and
the loop then terminates with no result. -/
theorem generate_image_go_transient_last (responses : Nat → ImgResponse)
    (ht : isTransientResponse (responses 3)) :
    (generate_image_go responses 3 1).result = none
    ∧ (generate_image_go responses 3 1).attempts = 1 := by
  cases hr : responses 3 with
  | raised => simp [generate_image_go, hr, imgMaxRetries]
  | httpResp code body =>
    have ht' : code = 429 ∨ code = 500 ∨ code = 502 ∨ code = 503 := by
      rw [hr] at ht; exact ht
    simp only [generate_image_go, hr]
    rw [if_pos ht']
    simp [generate_image_go]

/-- C4: when the endpoint reports a transient/overload failure (HTTP
429/500/502/503 or a raised network error) on every attempt, the client
dispatches exactly `_IMG_MAX_RETRIES = 4` attempts — never more — sleeps
`5 * 2 ^ k` seconds between attempt `k` and attempt `k + 1`, and then returns
no result instead of raising or looping forever. -/
theorem generate_image_transient_exhausts (responses : Nat → ImgResponse)
    (h : ∀ a, isTransientResponse (responses a)) :
    (generate_image responses).attempts = 4
    ∧ (generate_image responses).result = none
    ∧ ∀ k, k < 3 → (generate_image responses).sleeps[k]? = some (5 * 2 ^ k) := by
  have s0 : generate_image_go responses 0 4
      = ⟨(generate_image_go responses 1 3).result,
         (generate_image_go responses 1 3).attempts + 1,
         imgBackoff 0 :: (generate_image_go responses 1 3).sleeps⟩ :=
    generate_image_go_transient_step responses 0 3 (h 0) (by decide)
  have s1 : generate_image_go responses 1 3
      = ⟨(generate_image_go responses 2 2).result,
         (generate_image_go responses 2 2).attempts + 1,
         imgBackoff 1 :: (generate_image_go responses 2 2).sleeps⟩ :=
    generate_image_go_transient_step responses 1 2 (h 1) (by decide)
  have s2 : generate_image_go responses 2 2
      = ⟨(generate_image_go responses 3 1).result,
         (generate_image_go responses 3 1).attempts + 1,
         imgBackoff 2 :: (generate_image_go responses 3 1).sleeps⟩ :=
    generate_image_go_transient_step responses 2 1 (h 2) (by decide)
  have hl := generate_image_go_transient_last responses (h 3)
  have e : generate_image responses = generate_image_go responses 0 4 := rfl
  refine ⟨?_, ?_, ?_⟩
  · rw [e, s0, s1, s2]
    simp [hl.2]
  · rw [e, s0, s1, s2]
    simp [hl.1]
  · intro k hk
    rw [e, s0, s1, s2]
    interval_cases k <;> simp [imgBackoff]

/-- C4 witness: an endpoint answering HTTP 429 forever is dispatched exactly
4 attempts, with backoffs 5, 10, 20 between consecutive attempts, and the
call returns no result. -/
theorem generate_image_transient_exhausts_witness :
    (generate_image (fun _ => .httpResp 429 ⟨[]⟩)).attempts = 4
    ∧ (generate_image (fun _ => .httpResp 429 ⟨[]⟩)).result = none
    ∧ ∀ k, k < 3 →
        (generate_image (fun _ => .httpResp 429 ⟨[]⟩)).sleeps[k]? = some (5 * 2 ^ k) :=
  generate_image_transient_exhausts (fun _ => .httpResp 429 ⟨[]⟩)
    (fun _ => Or.inl rfl)

/-- C3 counterexample: a permanent (non-transient) HTTP failure — status 404
on every attempt — does not make the call return after the first response:
all 4 attempts are dispatched, so further retries do happen after a permanent
failure response. -/
theorem generate_image_permanent_http_failure_retried :
    (generate_image (fun _ => .httpResp 404 ⟨[]⟩)).attempts = 4
    ∧ (generate_image (fun _ => .httpResp 404 ⟨[]⟩)).result = none
    ∧ ¬ (generate_image (fun _ => .httpResp 404 ⟨[]⟩)).attempts ≤ 1 := by decide

/-- C3 (amended): an unusable successful payload (HTTP 200 whose body has no
candidates or no usable inline image) causes the call to return failure
immediately, with exactly one dispatch and no backoff sleep; a non-transient
non-200 HTTP status instead causes an immediate retry (without backoff) until
the attempt budget is exhausted. -/
theorem generate_image_unusable_payload_immediate (responses : Nat → ImgResponse)
    (body : ImgBody) (h0 : responses 0 = .httpResp 200 body)
    (hu : extractImage body = none) :
    (generate_image responses).result = none
    ∧ (generate_image responses).attempts = 1
    ∧ (generate_image responses).sleeps = [] := by
  have e : generate_image responses = generate_image_go responses 0 4 := rfl
  rw [e]
  simp [generate_image_go, h0, hu]

/-- C3 witness: a 200 response with an empty candidate list returns failure
after a single dispatch. -/
theorem generate_image_unusable_payload_immediate_witness :
    (generate_image (fun _ => .httpResp 200 ⟨[]⟩)).result = none
    ∧ (generate_image (fun _ => .httpResp 200 ⟨[]⟩)).attempts = 1
    ∧ (generate_image (fun _ => .httpResp 200 ⟨[]⟩)).sleeps = [] :=
  generate_image_unusable_payload_immediate (fun _ => .httpResp 200 ⟨[]⟩) ⟨[]⟩
    rfl rfl

/-- Each critical section records a timestamp at least `_IMG_MIN_INTERVAL`
after the previously stored one. -/
theorem dispatchTimestamp_ge (last now slack : ℚ) (hs : 0 ≤ slack) :
    last + imgMinInterval ≤ dispatchTimestamp last now slack := by
  unfold dispatchTimestamp limiterWait imgMinInterval
  split
  · next hpos => linarith
  · next hnonpos =>
    push_neg at hnonpos
    linarith

/-- Consecutive recorded dispatch timestamps of a serialized run are at least
the minimum interval apart. -/
theorem limiterRun_chain (last : ℚ) (inputs : List (ℚ × ℚ))
    (h : ∀ p ∈ inputs, 0 ≤ p.2) :
    (limiterRun last inputs).Chain' (fun a b => a + imgMinInterval ≤ b) := by
  induction inputs generalizing last with
  | nil => simp [limiterRun]
  | cons p rest ih =>
    obtain ⟨now, slack⟩ := p
    simp only [limiterRun]
    rw [List.chain'_cons']
    refine ⟨?_, ih _ (fun q hq => h q (List.mem_cons_of_mem _ hq))⟩
    intro b hb
    cases rest with
    | nil => simp [limiterRun] at hb
    | cons q rest' =>
      obtain ⟨now', slack'⟩ := q
      simp only [limiterRun, List.head?_cons, Option.mem_def, Option.some.injEq] at hb
      rw [← hb]
      exact dispatchTimestamp_ge _ now' slack' (h (now', slack') (by simp))

/-- C7: under the limiter lock serialization, the recorded dispatch
timestamps (already in sorted order, since each exceeds its predecessor by at
least the minimum interval) are pairwise separated by at least
`_IMG_MIN_INTERVAL = 4` seconds, for any number of dispatches, entry clock
values and nonnegative sleep/clock slack. -/
theorem limiter_min_spacing (last : ℚ) (inputs : List (ℚ × ℚ))
    (h : ∀ p ∈ inputs, 0 ≤ p.2) :
    (limiterRun last inputs).Pairwise (fun a b => a + imgMinInterval ≤ b)
    ∧ (limiterRun last inputs).Sorted (· ≤ ·) := by
  have htrans : IsTrans ℚ (fun a b => a + imgMinInterval ≤ b) :=
    ⟨fun a b c hab hbc => by
      unfold imgMinInterval at *
      linarith⟩
  have hp := List.chain'_iff_pairwise.mp (limiterRun_chain last inputs h)
  refine ⟨hp, hp.imp ?_⟩
  intro a b hab
  unfold imgMinInterval at hab
  linarith

/-- C7 witness: three serialized dispatches entering at clock times 0, 1 and
10 with no slack produce pairwise-separated, sorted timestamps. -/
theorem limiter_min_spacing_witness :
    (limiterRun 0 [(0, 0), (1, 0), (10, 0)]).Pairwise
      (fun a b => a + imgMinInterval ≤ b)
    ∧ (limiterRun 0 [(0, 0), (1, 0), (10, 0)]).Sorted (· ≤ ·) :=
  limiter_min_spacing 0 [(0, 0), (1, 0), (10, 0)] (by decide)

/-- Updating index `i` leaves every other index unchanged. -/
theorem updateAt_getElem?_ne {α : Type} (l : List α) (i j : Nat) (f : α → α)
    (hne : i ≠ j) : (updateAt l i f)[j]? = l[j]? := by
  induction l generalizing i j with
  | nil => simp [updateAt]
  | cons x xs ih =>
    cases i with
    | zero =>
      cases j with
      | zero => exact absurd rfl hne
      | succ j => simp [updateAt]
    | succ i =>
      cases j with
      | zero => simp [updateAt]
      | succ j => simpa [updateAt] using ih i j (by omega)

/-- Updating index `i` applies `f` at index `i`. -/
theorem updateAt_getElem?_self {α : Type} (l : List α) (i : Nat) (f : α → α) :
    (updateAt l i f)[i]? = l[i]?.map f := by
  induction l generalizing i with
  | nil => simp [updateAt]
  | cons x xs ih =>
    cases i with
    | zero => simp [updateAt]
    | succ i => simpa [updateAt] using ih i

/-- Updates at distinct indices commute. -/
theorem updateAt_comm {α : Type} (l : List α) (i j : Nat) (f g : α → α)
    (hne : i ≠ j) :
    updateAt (updateAt l i f) j g = updateAt (updateAt l j g) i f := by
  induction l generalizing i j with
  | nil => simp [updateAt]
  | cons x xs ih =>
    cases i with
    | zero =>
      cases j with
      | zero => exact absurd rfl hne
      | succ j => simp [updateAt]
    | succ i =>
      cases j with
      | zero => simp [updateAt]
      | succ j =>
        simp only [updateAt, List.cons.injEq, true_and]
        exact ih i j (by omega)

/-- Two updates at the same index compose. -/
theorem updateAt_updateAt_self {α : Type} (l : List α) (i : Nat) (f g : α → α) :
    updateAt (updateAt l i f) i g = updateAt l i (fun a => g (f a)) := by
  induction l generalizing i with
  | nil => simp [updateAt]
  | cons x xs ih =>
    cases i with
    | zero => simp [updateAt]
    | succ i =>
      simp only [updateAt, List.cons.injEq, true_and]
      exact ih i

/-- Merging a result leaves every other slot unchanged. -/
theorem getSlotImage_applyImageResult_ne (beats : List StoryBeat)
    (r : Nat × Nat × Option PyStr) (b s : Nat) (hne : resultKey r ≠ (b, s)) :
    getSlotImage (applyImageResult beats r) b s = getSlotImage beats b s := by
  obtain ⟨bi, si, img⟩ := r
  cases img with
  | none => rfl
  | some img =>
    by_cases he : img = []
    · simp [applyImageResult, he]
    · simp only [applyImageResult, if_neg he]
      by_cases hb : bi = b
      · subst hb
        have hs : si ≠ s := by
          intro h
          exact hne (by simp [resultKey, h])
        unfold getSlotImage
        rw [updateAt_getElem?_self]
        cases hbeats : beats[bi]? with
        | none => rfl
        | some beat =>
          simp only [Option.map_some', Option.bind_some, Option.some_bind]
          rw [updateAt_getElem?_ne _ si s _ hs]
      · unfold getSlotImage
        rw [updateAt_getElem?_ne _ bi b _ hb]

/-- Merging a truthy result writes its image into its own slot. -/
theorem getSlotImage_applyImageResult_self (beats : List StoryBeat)
    (bi si : Nat) (img : PyStr) (himg : img ≠ [])
    (hslot : (getSlotImage beats bi si).isSome) :
    getSlotImage (applyImageResult beats (bi, si, some img)) bi si = some img := by
  simp only [applyImageResult, if_neg himg]
  unfold getSlotImage at hslot ⊢
  cases hbeats : beats[bi]? with
  | none => rw [hbeats] at hslot; simp at hslot
  | some beat =>
    rw [hbeats] at hslot
    rw [updateAt_getElem?_self, hbeats]
    simp only [Option.map_some', Option.some_bind] at hslot ⊢
    cases hsteps : beat.image_steps[si]? with
    | none => rw [hsteps] at hslot; simp at hslot
    | some st =>
      rw [updateAt_getElem?_self, hsteps]
      simp

/-- Results with distinct slot keys merge in either order. -/
theorem applyImageResult_comm (beats : List StoryBeat)
    (x y : Nat × Nat × Option PyStr) (hk : resultKey x ≠ resultKey y) :
    applyImageResult (applyImageResult beats x) y
      = applyImageResult (applyImageResult beats y) x := by
  obtain ⟨xb, xs, ximg⟩ := x
  obtain ⟨yb, ys, yimg⟩ := y
  cases ximg with
  | none => rfl
  | some ximg =>
    cases yimg with
    | none => rfl
    | some yimg =>
      by_cases hx : ximg = []
      · simp [applyImageResult, hx]
      · by_cases hy : yimg = []
        · simp [applyImageResult, hy]
        · simp only [applyImageResult, if_neg hx, if_neg hy]
          by_cases hb : xb = yb
          · subst hb
            have hs : xs ≠ ys := by
              intro h
              exact hk (by simp [resultKey, h])
            rw [updateAt_updateAt_self, updateAt_updateAt_self]
            refine congrArg (updateAt beats xb) ?_
            funext beat
            exact congrArg (fun v => ({ beat with image_steps := v } : StoryBeat))
              (updateAt_comm beat.image_steps xs ys _ _ hs)
          · rw [updateAt_comm _ xb yb _ _ hb]

/-- A fold over results none of which key the slot leaves the slot unchanged. -/
theorem getSlotImage_merge_of_not_mem (results : List (Nat × Nat × Option PyStr))
    (b s : Nat) :
    ∀ beats : List StoryBeat, (∀ r ∈ results, resultKey r ≠ (b, s)) →
      getSlotImage (mergeImageResults beats results) b s = getSlotImage beats b s := by
  induction results with
  | nil => intro beats _; rfl
  | cons r rest ih =>
    intro beats hnk
    have step : mergeImageResults beats (r :: rest)
        = mergeImageResults (applyImageResult beats r) rest := rfl
    rw [step, ih _ (fun q hq => hnk q (List.mem_cons_of_mem _ hq))]
    exact getSlotImage_applyImageResult_ne beats r b s (hnk r (List.mem_cons_self _ _))

/-- Folding a batch with pairwise-distinct slot keys writes each truthy
result into its own slot, regardless of any results merged before or after. -/
theorem getSlotImage_merge_of_mem (results : List (Nat × Nat × Option PyStr))
    (b s : Nat) (img : PyStr) (himg : img ≠ []) :
    ∀ beats : List StoryBeat, (b, s, some img) ∈ results →
      (results.map resultKey).Nodup →
      (getSlotImage beats b s).isSome →
      getSlotImage (mergeImageResults beats results) b s = some img := by
  induction results with
  | nil => intro beats h; simp at h
  | cons r rest ih =>
    intro beats hmem hnd hslot
    have hnd' : resultKey r ∉ rest.map resultKey ∧ (rest.map resultKey).Nodup := by
      rw [List.map_cons] at hnd
      exact List.nodup_cons.mp hnd
    have step : mergeImageResults beats (r :: rest)
        = mergeImageResults (applyImageResult beats r) rest := rfl
    rcases List.mem_cons.mp hmem with heq | hrest
    · have hkeys : ∀ q ∈ rest, resultKey q ≠ (b, s) := by
        intro q hq hkq
        apply hnd'.1
        rw [← heq]
        exact List.mem_map.mpr ⟨q, hq, hkq⟩
      rw [step, getSlotImage_merge_of_not_mem rest b s _ hkeys, ← heq]
      exact getSlotImage_applyImageResult_self beats b s img himg hslot
    · have hkr : resultKey r ≠ (b, s) := by
        intro hkq
        apply hnd'.1
        rw [hkq]
        exact List.mem_map.mpr ⟨(b, s, some img), hrest, rfl⟩
      have hslot' : (getSlotImage (applyImageResult beats r) b s).isSome := by
        rw [getSlotImage_applyImageResult_ne beats r b s hkr]
        exact hslot
      rw [step]
      exact ih (applyImageResult beats r) hrest hnd'.2 hslot'

/-- Merging is invariant under the completion order when the batch has
pairwise-distinct slot keys. -/
theorem mergeImageResults_perm (beats : List StoryBeat)
    (results order : List (Nat × Nat × Option PyStr))
    (hperm : order.Perm results) (hnd : (results.map resultKey).Nodup) :
    mergeImageResults beats order = mergeImageResults beats results := by
  refine hperm.foldl_eq' ?_ beats
  intro x hx y hy z
  by_cases hxy : x = y
  · rw [hxy]
  · have hkey : resultKey x ≠ resultKey y := by
      intro hk
      exact hxy (List.inj_on_of_nodup_map hnd (hperm.subset hx) (hperm.subset hy) hk)
    exact applyImageResult_comm z x y hkey


/-- Every job collected from a step list keeps the beat index and an in-order
step index at least the starting offset. -/
theorem collectStepJobs_bounds (bi : Nat) (steps : List ImageStep) :
    ∀ si : Nat, ∀ j ∈ collectStepJobs bi si steps, j.1 = bi ∧ si ≤ j.2.1 := by
  induction steps with
  | nil => intro si j hj; simp [collectStepJobs] at hj
  | cons st rest ih =>
    intro si j hj
    by_cases hp : st.prompt ≠ []
    · rw [collectStepJobs, if_pos hp] at hj
      rcases List.mem_cons.mp hj with h | h
      · rw [h]
        exact ⟨rfl, Nat.le_refl _⟩
      · have := ih (si + 1) j h
        exact ⟨this.1, by omega⟩
    · rw [collectStepJobs, if_neg hp] at hj
      have := ih (si + 1) j hj
      exact ⟨this.1, by omega⟩

/-- The slot keys of the jobs collected from one beat are pairwise distinct. -/
theorem collectStepJobs_keys_nodup (bi : Nat) (steps : List ImageStep) :
    ∀ si : Nat, ((collectStepJobs bi si steps).map jobKey).Nodup := by
  induction steps with
  | nil => intro si; simp [collectStepJobs]
  | cons st rest ih =>
    intro si
    by_cases hp : st.prompt ≠ []
    · rw [collectStepJobs, if_pos hp, List.map_cons, List.nodup_cons]
      refine ⟨?_, ih (si + 1)⟩
      intro hmem
      rcases List.mem_map.mp hmem with ⟨j, hj, hkey⟩
      have hb := (collectStepJobs_bounds bi rest (si + 1) j hj).2
      have : j.2.1 = si := congrArg Prod.snd hkey
      omega
    · rw [collectStepJobs, if_neg hp]
      exact ih (si + 1)

/-- Every job collected from a beat list carries a beat index at least the
starting offset. -/
theorem collectImageJobs_bounds (beats : List StoryBeat) :
    ∀ b0 : Nat, ∀ j ∈ collectImageJobs b0 beats, b0 ≤ j.1 := by
  induction beats with
  | nil => intro b0 j hj; simp [collectImageJobs] at hj
  | cons beat rest ih =>
    intro b0 j hj
    rw [collectImageJobs] at hj
    rcases List.mem_append.mp hj with h | h
    · rw [(collectStepJobs_bounds b0 beat.image_steps 0 j h).1]
    · have := ih (b0 + 1) j h
      omega

/-- The slot keys of the whole collected batch are pairwise distinct: each
`(beat, step)` slot is the origin of at most one job. -/
theorem collectImageJobs_keys_nodup (beats : List StoryBeat) :
    ∀ b0 : Nat, ((collectImageJobs b0 beats).map jobKey).Nodup := by
  induction beats with
  | nil => intro b0; simp [collectImageJobs]
  | cons beat rest ih =>
    intro b0
    rw [collectImageJobs, List.map_append]
    refine (collectStepJobs_keys_nodup b0 beat.image_steps 0).append (ih (b0 + 1)) ?_
    intro a ha hmem
    rcases List.mem_map.mp ha with ⟨j, hj, hkey⟩
    rcases List.mem_map.mp hmem with ⟨q, hq, hkeyq⟩
    have h1 : j.1 = b0 := (collectStepJobs_bounds b0 beat.image_steps 0 j hj).1
    have h2 : b0 + 1 ≤ q.1 := collectImageJobs_bounds rest (b0 + 1) q hq
    have h5 : jobKey j = jobKey q := hkey.trans hkeyq.symm
    have h6 : (jobKey j).1 = (jobKey q).1 := congrArg Prod.fst h5
    simp only [jobKey] at h6
    omega

/-- Running the workers preserves each job slot key. -/
theorem runImageJobs_keys (gen : PyStr → Option PyStr)
    (jobs : List (Nat × Nat × PyStr)) :
    (runImageJobs gen jobs).map resultKey = jobs.map jobKey := by
  unfold runImageJobs
  rw [List.map_map]
  rfl

/-- C8: for every batch of job results with pairwise-distinct originating
slot keys (as every batch collected by `generate_story_visuals` is) and every
completion order — any permutation of the batch — each truthy result is
written into the `image_data` of its own `(beat, step)` slot, never a
different one. -/
theorem fanout_merge_by_slot (beats : List StoryBeat)
    (results order : List (Nat × Nat × Option PyStr))
    (hperm : order.Perm results) (hnd : (results.map resultKey).Nodup)
    (b s : Nat) (img : PyStr) (hmem : (b, s, some img) ∈ results)
    (himg : img ≠ []) (hslot : (getSlotImage beats b s).isSome) :
    getSlotImage (mergeImageResults beats order) b s = some img := by
  rw [mergeImageResults_perm beats results order hperm hnd]
  exact getSlotImage_merge_of_mem results b s img himg beats hmem hnd hslot

/-- C8 witness: for the job batch `[(0,0,"a"), (0,1,"b"), (1,0,"c")]` with
job `(0,1)` finishing first, the merged output still places the `(0,1)`
result at slot `(0,1)`. -/
theorem fanout_merge_by_slot_witness :
    getSlotImage (mergeImageResults c8_beats c8_order) 0 1 = some (pstr "img-b") :=
  fanout_merge_by_slot c8_beats c8_results c8_order (by decide) (by decide)
    0 1 (pstr "img-b") (by decide) (by decide) (by decide)


/-- C2 counterexample: a traced run records 10 events, not 9 — the graph
declares 10 stages — and the events do not name only their stage's owned
fields: already the first event (for `store_raw_files`, owning `raw_files`)
lists all 15 state keys, because the stage returns the whole spread state. -/
theorem trace_not_nine_owned_events :
    pipelineTraceEvents.length = 10
    ∧ ¬ pipelineTraceEvents.length = 9
    ∧ pipelineTraceEvents.head?.map Prod.snd = some pipelineStateFields
    ∧ ¬ (∀ e ∈ pipelineTraceEvents, ∀ k ∈ e.2, k ∈ stageOwnedFields e.1) := by
  refine ⟨by decide, by decide, by decide, ?_⟩
  intro h
  have h1 := h ("store_raw_files", dictMergeKeys pipelineStateFields ["raw_files"])
    (by decide) "extracted_text" (by decide)
  exact absurd h1 (by decide)

/-- C2 (amended): a traced run produces exactly 10 trace events, one per
stage in declared order, and every event's updated-field list is the full
15-key state field list (each stage returns the whole merged state), not just
the stage's owned fields. -/
theorem trace_ten_full_state_events :
    pipelineTraceEvents.length = 10
    ∧ pipelineTraceEvents.map Prod.fst = pipelineStageNames
    ∧ ∀ e ∈ pipelineTraceEvents, e.2 = pipelineStateFields := by
  refine ⟨by decide, by decide, by decide⟩
